import Mathlib

/-!
Verification of the speech-delivery pipeline and assessment state machine
of the alzai repository (src/components/AlzheimersVoiceTest.tsx and
src/lib/huggingFaceApi.ts), as a shallow embedding in Lean.

The pipeline (huggingFaceApi.ts) is modelled by pure functions over an
environment recording the outcome of each primary attempt (HTTP fetch and
audio decode) and of the local Web Speech fallback.  The React component's
state is modelled by an explicit record, and its handlers become state
transformers; speech calls are abstracted by an oracle giving the outcome
of each sequential speakWithFallback call.
-/

namespace AlzVoice

instance {α β : Type} [DecidableEq α] [DecidableEq β] : DecidableEq (Except α β) := fun x y =>
  match x, y with
  | .ok a, .ok b =>
    if h : a = b then isTrue (by rw [h]) else isFalse (by intro hc; cases hc; exact h rfl)
  | .ok _, .error _ => isFalse (by intro hc; cases hc)
  | .error _, .ok _ => isFalse (by intro hc; cases hc)
  | .error a, .error b =>
    if h : a = b then isTrue (by rw [h]) else isFalse (by intro hc; cases hc; exact h rfl)

/-- An HTTP response as seen by textToSpeech: status, statusText and the
error body used when building the failure message. -/
structure HttpResp where
  status : Nat
  statusText : String
  body : String
deriving DecidableEq

/-- response.ok in the fetch API: status in the 2xx range. -/
def respOk (r : HttpResp) : Bool :=
  decide (200 ≤ r.status ∧ r.status < 300)

/-- Error taxonomy of the delivery pipeline: provider errors (non-2xx
response from the inference endpoint), network errors (fetch rejected),
decode errors (decodeAudioData failed), and the two fallback failures of
webSpeechFallback (speechSynthesis absent, or the utterance errored). -/
inductive SpeakErr where
  | provider (status : Nat) (statusText : String) (body : String)
  | network (msg : String)
  | decode (msg : String)
  | fallbackUnavailable
  | fallbackFailed (msg : String)
deriving DecidableEq

/-- Outcome of one primary-path attempt: the result of the fetch call and,
when an audio payload is obtained, the result of decoding/playing it. -/
structure PrimAttempt where
  fetch : Except String HttpResp
  decode : Except String Unit
deriving DecidableEq

/-- One pass of textToSpeech followed by playAudio: a rejected fetch is a
network error; a non-ok response raises the provider error built from
status, statusText and body; an ok response is decoded and played, failing
with a decode error when decodeAudioData rejects. -/
def runAttempt (a : PrimAttempt) : Except SpeakErr Unit :=
  match a.fetch with
  | .error e => .error (.network e)
  | .ok r =>
    if respOk r then
      match a.decode with
      | .ok _ => .ok ()
      | .error e => .error (.decode e)
    else .error (.provider r.status r.statusText r.body)

/-- Environment of one speakWithFallback call: the outcome of each
primary attempt (indexed by the 1-based attempt counter), whether
window.speechSynthesis exists, and the outcome of the fallback utterance. -/
structure SpeakEnv where
  attempts : Nat → PrimAttempt
  synthSupported : Bool
  utter : Except String Unit

/-- webSpeechFallback: rejects when speechSynthesis is unsupported,
otherwise resolves or rejects with the utterance outcome. -/
def webSpeechFallback (env : SpeakEnv) : Except SpeakErr Unit :=
  if env.synthSupported then
    match env.utter with
    | .ok _ => .ok ()
    | .error e => .error (.fallbackFailed e)
  else .error .fallbackUnavailable

/-- Outcome of the primary retry loop: either some attempt succeeded, or
the budget was exhausted with the recorded lastError.  Both record how
many attempts ran and the backoff delays awaited between attempts. -/
inductive PrimOutcome where
  | success (attemptsMade : Nat) (delays : List Nat)
  | exhausted (lastError : Option SpeakErr) (attemptsMade : Nat) (delays : List Nat)
deriving DecidableEq

/-- Base backoff delay in milliseconds (the literal 1000 in the source). -/
def baseDelay : Nat := 1000

/-- Default value of the maxRetries parameter of speakWithFallback. -/
def defaultMaxRetries : Nat := 2

/-- The for-loop of speakWithFallback over the remaining attempt numbers,
carrying lastError, the count of attempts already made, and the delays
awaited so far.  A failed attempt records lastError and, when attempt <
maxRetries, waits baseDelay * 2 ^ (attempt - 1) before the next one. -/
def runPrimary (env : SpeakEnv) (maxRetries : Nat) :
    List Nat → Option SpeakErr → Nat → List Nat → PrimOutcome
  | [], lastError, made, ds => .exhausted lastError made ds
  | a :: rest, _lastError, made, ds =>
    match runAttempt (env.attempts a) with
    | .ok _ => .success (made + 1) ds
    | .error e =>
      runPrimary env maxRetries rest (some e) (made + 1)
        (if a < maxRetries then ds ++ [baseDelay * 2 ^ (a - 1)] else ds)

/-- Observable outcome of speakWithFallback: the promise result, the
number of primary attempts made, the backoff delays awaited, and how many
times the fallback was invoked. -/
structure SpeakOut where
  result : Except SpeakErr Unit
  primaryAttempts : Nat
  delays : List Nat
  fallbackCalls : Nat
deriving DecidableEq

/-- speakWithFallback: run the primary loop for attempts 1..maxRetries;
on success resolve, otherwise invoke webSpeechFallback once, resolving if
it succeeds and rejecting with lastError when defined (the recorded
primary error) else with the fallback error — the JS is
throw lastError || fallbackError, where every recorded error is truthy. -/
def speakWithFallback (env : SpeakEnv) (maxRetries : Nat) : SpeakOut :=
  match runPrimary env maxRetries (List.range' 1 maxRetries) none 0 [] with
  | .success made ds => ⟨.ok (), made, ds, 0⟩
  | .exhausted lastError made ds =>
    match webSpeechFallback env with
    | .ok _ => ⟨.ok (), made, ds, 1⟩
    | .error fe => ⟨.error (lastError.getD fe), made, ds, 1⟩

/-- Attempt count of a loop outcome. -/
def PrimOutcome.attempts : PrimOutcome → Nat
  | .success made _ => made
  | .exhausted _ made _ => made

/-- Every primary attempt is a network failure and the fallback utterance
errors. -/
def envAllFail : SpeakEnv :=
  { attempts := fun _ => { fetch := Except.error "network down", decode := Except.ok () },
    synthSupported := true,
    utter := Except.error "synthesis interrupted" }

/-- Every primary attempt gets a 503 response; the fallback succeeds. -/
def envFallbackOk : SpeakEnv :=
  { attempts := fun _ =>
      { fetch := Except.ok { status := 503, statusText := "Service Unavailable", body := "overloaded" },
        decode := Except.ok () },
    synthSupported := true,
    utter := Except.ok () }

/-- The network is down and speechSynthesis is not available at all. -/
def envNoSynth : SpeakEnv :=
  { attempts := fun _ => { fetch := Except.error "offline", decode := Except.ok () },
    synthSupported := false,
    utter := Except.ok () }

/-!
Assessment state machine (AlzheimersVoiceTest.tsx).  The component state
becomes a record; the handlers become state transformers.  The sequential
speakWithFallback calls made by startTest are abstracted by an oracle
giving each call's outcome, indexed by its position in the run: index 0 is
the introduction, 1..3 the three words, 4 the distraction prompt, 5 the
recall prompt.  The recognition onresult handler is modelled with React
closure semantics: it is wired once at mount (useEffect with an empty
dependency list), so the processUserResponse it calls captured the
mount-time testPhase, which is intro.
-/

/-- The testPhase values of the component. -/
inductive TestPhase where
  | intro | wordPresentation | distraction | recall | results
deriving DecidableEq

/-- The component state: testActive, testPhase, currentWordIndex, score,
transcript, error and the session word list, plus whether the
SpeechRecognition capability exists and the isListening flag. -/
structure TestState where
  testActive : Bool
  testPhase : TestPhase
  currentWordIndex : Nat
  score : Nat
  transcript : String
  error : Option String
  selectedWordList : List String
  hasRecognition : Bool
  isListening : Bool
deriving DecidableEq

/-- The fixed catalog of word lists. -/
def wordLists : List (List String) :=
  [["Apple", "Watch", "Penny"],
   ["Banana", "Sunset", "Chair"],
   ["River", "Nation", "Finger"],
   ["Leader", "Season", "Table"],
   ["Village", "Kitchen", "Baby"],
   ["Mountain", "Glasses", "Paper"]]

/-- JavaScript toLowerCase, on the character sequence of a string (the
test data is ASCII, where JS and ASCII lowercasing agree). -/
def lowerChars (s : String) : List Char :=
  s.toList.map Char.toLower

/-- JavaScript String.prototype.includes on character sequences:
substring (contiguous infix) containment. -/
def jsIncludes (hay needle : List Char) : Bool :=
  decide (needle <:+: hay)

/-- The state at mount: the word list is drawn once by randomIndex into
the catalog and there is no setter for it afterwards. -/
def initialState (randomIndex : Nat) (hasRec : Bool) : TestState :=
  { testActive := false
    testPhase := TestPhase.intro
    currentWordIndex := 0
    score := 0
    transcript := ""
    error := none
    selectedWordList := wordLists.getD randomIndex []
    hasRecognition := hasRec
    isListening := false }

/-- The processUserResponse closure as created in a render that saw
capturedPhase: lowercase the response, filter the selected word list by
substring containment, store the filter length as the score, and move to
results only when the captured phase is recall.  The phase comparison
reads the creating render's value (React closure semantics), while the
setters act on the live state. -/
def processUserResponseAt (capturedPhase : TestPhase) (text : String) (s : TestState) :
    TestState :=
  let lowerText := lowerChars text
  let correctWords := s.selectedWordList.filter (fun word => jsIncludes lowerText (lowerChars word))
  let s1 := { s with score := correctWords.length }
  if capturedPhase = TestPhase.recall then { s1 with testPhase := TestPhase.results } else s1

/-- processUserResponse evaluated against the current state's phase: the
closure of the render whose testPhase is the state's phase. -/
def processUserResponse (text : String) (s : TestState) : TestState :=
  processUserResponseAt s.testPhase text s

/-- startListening: guarded by the recognition object existing and not
already listening; clears the transcript and starts recognition. -/
def startListening (s : TestState) : TestState :=
  if s.hasRecognition = true ∧ s.isListening = false then
    { s with transcript := "", isListening := true }
  else s

/-- stopListening: guarded by the recognition object existing and
currently listening. -/
def stopListening (s : TestState) : TestState :=
  if s.hasRecognition = true ∧ s.isListening = true then
    { s with isListening := false }
  else s

/-- resetTest: clears activity, phase, word index, score, transcript and
error.  It does not touch selectedWordList, which has no setter. -/
def resetTest (s : TestState) : TestState :=
  { s with
    testActive := false
    testPhase := TestPhase.intro
    currentWordIndex := 0
    score := 0
    transcript := ""
    error := none }

/-- The recognition onresult handler followed by onend.  The handler is
wired once at mount (the useEffect has an empty dependency list), so the
processUserResponse closure it holds is the first render's, whose
captured testPhase is the mount-time intro: setTranscript and setScore
act on the live state, but the recall check compares the captured intro
phase, so the transition to results never fires; onend then stops
listening. -/
def captureResult (text : String) (s : TestState) : TestState :=
  let s1 := processUserResponseAt TestPhase.intro text { s with transcript := text }
  { s1 with isListening := false }

/-- The word-presentation for-loop of startTest: for each remaining word,
set currentWordIndex to i, then speak word i (call index base + i);
on a speech failure return the error together with the state at failure. -/
def presentWords (sp : Nat → Except String Unit) (base : Nat) :
    Nat → Nat → TestState → Except (String × TestState) TestState
  | _, 0, s => Except.ok s
  | i, r + 1, s =>
    let s1 := { s with currentWordIndex := i }
    match sp (base + i) with
    | .ok _ => presentWords sp base (i + 1) r s1
    | .error e => Except.error (e, s1)

/-- The catch block of startTest: record the error message, return to the
intro phase and deactivate the test. -/
def abortState (e : String) (s : TestState) : TestState :=
  { s with
    error := some ("An error occurred during the test: " ++ e)
    testPhase := TestPhase.intro
    testActive := false }

/-- startTest, instrumented with the list of phases it assigns in order:
activate, move to wordPresentation and clear score/transcript/error; then
speak the introduction, the three words (with currentWordIndex updates),
the distraction prompt after moving to distraction, and the recall prompt
after moving to recall, finally starting to listen.  Any speech failure
jumps to the catch block. -/
def startTestT (sp : Nat → Except String Unit) (s : TestState) : TestState × List TestPhase :=
  let s1 := { s with
    testActive := true
    testPhase := TestPhase.wordPresentation
    currentWordIndex := 0
    score := 0
    transcript := ""
    error := none }
  match sp 0 with
  | .error e => (abortState e s1, [TestPhase.wordPresentation, TestPhase.intro])
  | .ok _ =>
    match presentWords sp 1 0 s1.selectedWordList.length s1 with
    | .error (e, s2) => (abortState e s2, [TestPhase.wordPresentation, TestPhase.intro])
    | .ok s2 =>
      let s3 := { s2 with testPhase := TestPhase.distraction }
      match sp (1 + s1.selectedWordList.length) with
      | .error e =>
        (abortState e s3, [TestPhase.wordPresentation, TestPhase.distraction, TestPhase.intro])
      | .ok _ =>
        let s4 := { s3 with testPhase := TestPhase.recall }
        match sp (2 + s1.selectedWordList.length) with
        | .error e =>
          (abortState e s4,
           [TestPhase.wordPresentation, TestPhase.distraction, TestPhase.recall, TestPhase.intro])
        | .ok _ =>
          (startListening s4,
           [TestPhase.wordPresentation, TestPhase.distraction, TestPhase.recall])

/-- startTest without the phase trace. -/
def startTest (sp : Nat → Except String Unit) (s : TestState) : TestState :=
  (startTestT sp s).1

/-- The Start Test button is rendered only when the test is inactive and
the phase is intro. -/
def uiStartClick (sp : Nat → Except String Unit) (s : TestState) : TestState :=
  if s.testActive = false ∧ s.testPhase = TestPhase.intro then startTest sp s else s

/-- The Take Test Again button is rendered only in the results phase. -/
def uiResetClick (s : TestState) : TestState :=
  if s.testPhase = TestPhase.results then resetTest s else s

/-- The Start Speaking button is rendered only in the active recall phase
while not listening. -/
def uiListenClick (s : TestState) : TestState :=
  if s.testActive = true ∧ s.testPhase = TestPhase.recall ∧ s.isListening = false then
    startListening s
  else s

/-- A recognition result can only be emitted while recognition is active. -/
def uiRecognitionResult (text : String) (s : TestState) : TestState :=
  if s.isListening = true then captureResult text s else s

/-- The score processUserResponse computes for a word list and response
text, phrased as a count of matching words. -/
def scoreOf (wl : List String) (t : String) : Nat :=
  wl.countP (fun word => jsIncludes (lowerChars t) (lowerChars word))

/-- A speech oracle on which every call succeeds. -/
def okSpeak : Nat → Except String Unit := fun _ => Except.ok ()

/-- All states reached by the presentation loop agree with the input
state on every field except currentWordIndex. -/
def sameButIndex (b a : TestState) : Prop :=
  b.testActive = a.testActive ∧ b.testPhase = a.testPhase ∧ b.score = a.score ∧
  b.transcript = a.transcript ∧ b.error = a.error ∧
  b.selectedWordList = a.selectedWordList ∧ b.hasRecognition = a.hasRecognition ∧
  b.isListening = a.isListening

/-- captureResult instrumented with the phase trace it appends: the
stale closure's guard compares the captured mount-time intro phase with
recall, so no phase observation is ever produced by a capture. -/
def captureResultT (text : String) (s : TestState) : TestState × List TestPhase :=
  (captureResult text s,
   if TestPhase.intro = TestPhase.recall then [TestPhase.results] else [])

/-- Trace-instrumented recognition-result event. -/
def uiRecognitionResultT (text : String) (s : TestState) : TestState × List TestPhase :=
  if s.isListening = true then captureResultT text s else (s, [])

/-- The phases observed over one full run: the phase at the start
trigger, the phases startTest assigns, and any phase assigned when the
recognition result arrives (none, because of the stale onresult
closure). -/
def fullRunTrace (sp : Nat → Except String Unit) (text : String) (s : TestState) : List TestPhase :=
  s.testPhase :: (startTestT sp s).2 ++ (uiRecognitionResultT text (startTestT sp s).1).2

/-- Splitting a character sequence at non-alphabetic characters into
tokens, accumulating the current token in reverse. -/
def splitTokens : List Char → List Char → List (List Char)
  | [], acc => [acc.reverse]
  | c :: rest, acc =>
    if c.isAlpha then splitTokens rest (c :: acc)
    else acc.reverse :: splitTokens rest []

/-- Modelled from the spec: a whole-word, case-insensitive match — the
source has no whole-word matcher (processUserResponse uses substring
includes), so this definition follows the claim's words: the lowercased
transcript is split into maximal alphabetic tokens and the word must
equal one of them. -/
def wholeWordMatch (transcript word : String) : Bool :=
  (splitTokens (lowerChars transcript) []).contains (lowerChars word)

/-- Modelled from the spec: the number of word-list words with a
whole-word, case-insensitive match in the transcript. -/
def wholeWordScore (wl : List String) (t : String) : Nat :=
  wl.countP (fun w => wholeWordMatch t w)

/-- A state in the results (Scored) phase, as reached after a session
with word list Banana, Sunset, Chair and a recall of two of the words. -/
def scoredState : TestState :=
  { testActive := true
    testPhase := TestPhase.results
    currentWordIndex := 2
    score := 2
    transcript := "banana chair"
    error := none
    selectedWordList := ["Banana", "Sunset", "Chair"]
    hasRecognition := true
    isListening := false }

/-- A speech oracle whose first call fails and all later calls succeed. -/
def spFail0 : Nat → Except String Unit :=
  fun j => if j = 0 then Except.error "boom" else Except.ok ()

/-- The state after a full otherwise-successful run: start from the
mount state with word list Banana, Sunset, Chair, every speech call
succeeding, then the recognition result naming all three words captured
during recall. -/
def capturedRunState : TestState :=
  uiRecognitionResult "banana sunset chair" (startTest okSpeak (initialState 1 true))

/-- The state after additionally pressing the listen control again,
which the component still renders because the stale onresult closure
left the phase at recall. -/
def buggyListenState : TestState :=
  uiListenClick capturedRunState

lemma speak_primaryAttempts (env : SpeakEnv) (m : Nat) :
    (speakWithFallback env m).primaryAttempts =
      (runPrimary env m (List.range' 1 m) none 0 []).attempts := by
  unfold speakWithFallback
  cases runPrimary env m (List.range' 1 m) none 0 [] with
  | success made ds => rfl
  | exhausted le made ds =>
    cases webSpeechFallback env with
    | ok _ => rfl
    | error fe => rfl

lemma runPrimary_allFail (env : SpeakEnv) (m : Nat) (f : Nat → SpeakErr) :
    ∀ (l : List Nat) (last : Option SpeakErr) (made : Nat) (ds : List Nat),
      (∀ a ∈ l, runAttempt (env.attempts a) = .error (f a)) →
      runPrimary env m l last made ds =
        .exhausted (l.getLast?.elim last (fun a => some (f a))) (made + l.length)
          (ds ++ (l.filter (fun a => a < m)).map (fun a => baseDelay * 2 ^ (a - 1))) := by
  intro l
  induction l with
  | nil => intro last made ds _; simp [runPrimary]
  | cons a rest ih =>
    intro last made ds h
    have ha : runAttempt (env.attempts a) = .error (f a) := h a (by simp)
    have hrest : ∀ b ∈ rest, runAttempt (env.attempts b) = .error (f b) := by
      intro b hb; exact h b (by simp [hb])
    simp only [runPrimary, ha]
    rw [ih (some (f a)) (made + 1) _ hrest]
    congr 1
    · cases rest with
      | nil => simp
      | cons b t =>
        rw [List.getLast?_cons_cons]
        rw [List.getLast?_eq_getLast (b :: t) (by simp)]
        simp
    · simp only [List.length_cons]; omega
    · by_cases hm : a < m <;> simp [hm, List.filter_cons, List.append_assoc]

lemma runPrimary_attempts_le (env : SpeakEnv) (m : Nat) :
    ∀ (l : List Nat) (last : Option SpeakErr) (made : Nat) (ds : List Nat),
      (runPrimary env m l last made ds).attempts ≤ made + l.length := by
  intro l
  induction l with
  | nil => intro last made ds; simp [runPrimary, PrimOutcome.attempts]
  | cons a rest ih =>
    intro last made ds
    simp only [runPrimary]
    cases h : runAttempt (env.attempts a) with
    | ok _ => simp only [PrimOutcome.attempts, List.length_cons]; omega
    | error e =>
      have := ih (some e) (made + 1)
        (if a < m then ds ++ [baseDelay * 2 ^ (a - 1)] else ds)
      simp only [List.length_cons]
      omega

lemma runPrimary_attempts_ge (env : SpeakEnv) (m : Nat) :
    ∀ (l : List Nat) (last : Option SpeakErr) (made : Nat) (ds : List Nat),
      made ≤ (runPrimary env m l last made ds).attempts := by
  intro l
  induction l with
  | nil => intro last made ds; simp [runPrimary, PrimOutcome.attempts]
  | cons a rest ih =>
    intro last made ds
    simp only [runPrimary]
    cases h : runAttempt (env.attempts a) with
    | ok _ => simp only [PrimOutcome.attempts]; omega
    | error e =>
      have := ih (some e) (made + 1)
        (if a < m then ds ++ [baseDelay * 2 ^ (a - 1)] else ds)
      show made ≤ (runPrimary env m rest (some e) (made + 1)
        (if a < m then ds ++ [baseDelay * 2 ^ (a - 1)] else ds)).attempts
      omega

lemma range'_concat_one (s n : Nat) :
    List.range' s (n + 1) = List.range' s n ++ [s + n] := by
  induction n generalizing s with
  | zero => simp [List.range']
  | succ k ih =>
    rw [List.range'_succ, ih (s + 1), List.range'_succ]
    simp [List.cons_append]
    omega

lemma range'_getLast (m : Nat) (hm : 1 ≤ m) :
    (List.range' 1 m).getLast? = some m := by
  obtain ⟨k, rfl⟩ : ∃ k, m = k + 1 := ⟨m - 1, by omega⟩
  rw [range'_concat_one, List.getLast?_concat]
  congr 1
  omega

lemma range'_filter_lt (m : Nat) (hm : 1 ≤ m) :
    (List.range' 1 m).filter (fun a => a < m) = List.range' 1 (m - 1) := by
  obtain ⟨k, rfl⟩ : ∃ k, m = k + 1 := ⟨m - 1, by omega⟩
  rw [range'_concat_one]
  rw [List.filter_append]
  have h1 : (List.range' 1 k).filter (fun a => a < k + 1) = List.range' 1 k := by
    apply List.filter_eq_self.mpr
    intro a ha
    have := List.mem_range'_1.mp ha
    simp
    omega
  have h2 : [1 + k].filter (fun a => a < k + 1) = [] := by
    simp
    omega
  rw [h1, h2]
  simp

lemma runPrimary_range'_allFail (env : SpeakEnv) (m : Nat) (f : Nat → SpeakErr)
    (hm : 1 ≤ m)
    (h : ∀ a, 1 ≤ a → a ≤ m → runAttempt (env.attempts a) = .error (f a)) :
    runPrimary env m (List.range' 1 m) none 0 [] =
      .exhausted (some (f m)) m
        ((List.range' 1 (m - 1)).map (fun a => baseDelay * 2 ^ (a - 1))) := by
  have hall : ∀ a ∈ List.range' 1 m, runAttempt (env.attempts a) = .error (f a) := by
    intro a ha
    have := List.mem_range'_1.mp ha
    exact h a this.1 (by omega)
  rw [runPrimary_allFail env m f _ none 0 [] hall]
  rw [range'_getLast m hm, range'_filter_lt m hm]
  simp

lemma speak_zero (env : SpeakEnv) :
    speakWithFallback env 0 =
      match webSpeechFallback env with
      | .ok _ => ⟨.ok (), 0, [], 1⟩
      | .error fe => ⟨.error fe, 0, [], 1⟩ := by
  unfold speakWithFallback
  cases webSpeechFallback env <;> rfl

lemma runPrimary_attempts_pos (env : SpeakEnv) (m : Nat)
    (l : List Nat) (last : Option SpeakErr) (made : Nat) (ds : List Nat)
    (hl : l ≠ []) :
    made + 1 ≤ (runPrimary env m l last made ds).attempts := by
  cases l with
  | nil => exact absurd rfl hl
  | cons a rest =>
    simp only [runPrimary]
    cases h : runAttempt (env.attempts a) with
    | ok _ => simp only [PrimOutcome.attempts]; omega
    | error e =>
      have := runPrimary_attempts_ge env m rest (some e) (made + 1)
        (if a < m then ds ++ [baseDelay * 2 ^ (a - 1)] else ds)
      show made + 1 ≤ (runPrimary env m rest (some e) (made + 1)
        (if a < m then ds ++ [baseDelay * 2 ^ (a - 1)] else ds)).attempts
      omega

/- Concrete environments used by the witnesses below. -/

/-- C1: for every text, when every primary-path attempt of
speakWithFallback fails and the local synthesis fallback also fails, the
error the call rejects with is the last error of the primary path (the
recorded lastError), not the fallback error. -/
theorem speak_surfaces_primary_error (env : SpeakEnv) (m : Nat)
    (f : Nat → SpeakErr) (fe : SpeakErr) (hm : 1 ≤ m)
    (hfail : ∀ a, 1 ≤ a → a ≤ m → runAttempt (env.attempts a) = .error (f a))
    (hfb : webSpeechFallback env = .error fe) :
    (speakWithFallback env m).result = .error (f m) := by
  unfold speakWithFallback
  rw [runPrimary_range'_allFail env m f hm hfail, hfb]
  rfl

theorem speak_surfaces_primary_error_witness :
    (speakWithFallback envAllFail 2).result = Except.error (SpeakErr.network "network down") :=
  speak_surfaces_primary_error envAllFail 2 (fun _ => SpeakErr.network "network down")
    (SpeakErr.fallbackFailed "synthesis interrupted") (by decide) (fun _ _ _ => rfl) rfl

/-- C5: when every primary attempt up to the retry budget fails, the
fallback is invoked exactly once, and if it succeeds the whole call
resolves with no error. -/
theorem speak_fallback_invoked_once (env : SpeakEnv) (m : Nat) (f : Nat → SpeakErr)
    (hfail : ∀ a, 1 ≤ a → a ≤ m → runAttempt (env.attempts a) = .error (f a)) :
    (speakWithFallback env m).fallbackCalls = 1 ∧
      (webSpeechFallback env = .ok () → (speakWithFallback env m).result = .ok ()) := by
  by_cases hm : 1 ≤ m
  · unfold speakWithFallback
    rw [runPrimary_range'_allFail env m f hm hfail]
    cases hfb : webSpeechFallback env with
    | ok _ => exact ⟨rfl, fun _ => rfl⟩
    | error fe => exact ⟨rfl, fun h => Except.noConfusion h⟩
  · have hm0 : m = 0 := by omega
    subst hm0
    rw [speak_zero]
    cases hfb : webSpeechFallback env with
    | ok _ => exact ⟨rfl, fun _ => rfl⟩
    | error fe => exact ⟨rfl, fun h => Except.noConfusion h⟩

theorem speak_fallback_invoked_once_witness :
    (speakWithFallback envFallbackOk 2).fallbackCalls = 1 ∧
      (speakWithFallback envFallbackOk 2).result = Except.ok () :=
  ⟨(speak_fallback_invoked_once envFallbackOk 2
      (fun _ => SpeakErr.provider 503 "Service Unavailable" "overloaded")
      (fun _ _ _ => rfl)).1,
   (speak_fallback_invoked_once envFallbackOk 2
      (fun _ => SpeakErr.provider 503 "Service Unavailable" "overloaded")
      (fun _ _ _ => rfl)).2 rfl⟩

/-- C6: speakWithFallback makes at most maxRetries primary attempts
(default 2); between consecutive attempts it waits
baseDelay * 2 ^ (attempt - 1) milliseconds with baseDelay = 1000 (shown
here for a fully failing primary path, where the delays awaited are
exactly those of attempts 1..maxRetries-1); and every failure kind is
retried — any error on attempt 1 still leads to a second attempt when the
budget allows. -/
theorem speak_retry_policy (env : SpeakEnv) (m : Nat) (f : Nat → SpeakErr) (e : SpeakErr) :
    (speakWithFallback env m).primaryAttempts ≤ m ∧
    ((∀ a, 1 ≤ a → a ≤ m → runAttempt (env.attempts a) = .error (f a)) →
      (speakWithFallback env m).delays =
        (List.range' 1 (m - 1)).map (fun a => baseDelay * 2 ^ (a - 1))) ∧
    (runAttempt (env.attempts 1) = .error e → 2 ≤ m →
      2 ≤ (speakWithFallback env m).primaryAttempts) ∧
    defaultMaxRetries = 2 ∧ baseDelay = 1000 := by
  refine ⟨?_, ?_, ?_, rfl, rfl⟩
  · rw [speak_primaryAttempts]
    have := runPrimary_attempts_le env m (List.range' 1 m) none 0 []
    simpa [List.length_range'] using this
  · intro hfail
    by_cases hm : 1 ≤ m
    · unfold speakWithFallback
      rw [runPrimary_range'_allFail env m f hm hfail]
      cases hfb : webSpeechFallback env <;> rfl
    · have hm0 : m = 0 := by omega
      subst hm0
      rw [speak_zero]
      cases hfb : webSpeechFallback env <;> rfl
  · intro he hm
    rw [speak_primaryAttempts]
    obtain ⟨k, rfl⟩ : ∃ k, m = k + 1 := ⟨m - 1, by omega⟩
    rw [List.range'_succ]
    simp only [runPrimary, he]
    have hne : List.range' 2 k ≠ [] := by
      have hlen : (List.range' 2 k).length = k := by simp
      intro hnil
      rw [hnil] at hlen
      simp at hlen
      omega
    have := runPrimary_attempts_pos env (k + 1) (List.range' 2 k) (some e) 1
      (if 1 < k + 1 then [] ++ [baseDelay * 2 ^ (1 - 1)] else []) hne
    show 2 ≤ (runPrimary env (k + 1) (List.range' 2 k) (some e) 1
      (if 1 < k + 1 then [] ++ [baseDelay * 2 ^ (1 - 1)] else [])).attempts
    omega

theorem speak_retry_policy_witness :
    (speakWithFallback envAllFail 2).primaryAttempts ≤ 2 ∧
    (speakWithFallback envAllFail 2).delays =
      (List.range' 1 1).map (fun a => baseDelay * 2 ^ (a - 1)) ∧
    2 ≤ (speakWithFallback envAllFail 2).primaryAttempts :=
  ⟨(speak_retry_policy envAllFail 2 (fun _ => SpeakErr.network "network down")
      (SpeakErr.network "network down")).1,
   (speak_retry_policy envAllFail 2 (fun _ => SpeakErr.network "network down")
      (SpeakErr.network "network down")).2.1 (fun _ _ _ => rfl),
   (speak_retry_policy envAllFail 2 (fun _ => SpeakErr.network "network down")
      (SpeakErr.network "network down")).2.2.1 rfl (by decide)⟩

/-- C10: with maxRetries = 0 the primary loop body never runs, the
fallback is invoked directly, and a fallback failure is surfaced as is,
since no primary error was ever recorded. -/
theorem speak_zero_retries (env : SpeakEnv) (fe : SpeakErr) :
    (speakWithFallback env 0).primaryAttempts = 0 ∧
    (speakWithFallback env 0).fallbackCalls = 1 ∧
    (webSpeechFallback env = .error fe → (speakWithFallback env 0).result = .error fe) := by
  rw [speak_zero]
  cases hfb : webSpeechFallback env with
  | ok _ => exact ⟨rfl, rfl, fun h => Except.noConfusion h⟩
  | error g =>
    refine ⟨rfl, rfl, fun h => ?_⟩
    cases h
    rfl

theorem speak_zero_retries_witness :
    (speakWithFallback envNoSynth 0).primaryAttempts = 0 ∧
      (speakWithFallback envNoSynth 0).result = Except.error SpeakErr.fallbackUnavailable :=
  ⟨(speak_zero_retries envNoSynth SpeakErr.fallbackUnavailable).1,
   (speak_zero_retries envNoSynth SpeakErr.fallbackUnavailable).2.2 rfl⟩

lemma sameButIndex_refl (a : TestState) : sameButIndex a a :=
  ⟨rfl, rfl, rfl, rfl, rfl, rfl, rfl, rfl⟩

lemma sameButIndex_update (a : TestState) (i : Nat) :
    sameButIndex { a with currentWordIndex := i } a :=
  ⟨rfl, rfl, rfl, rfl, rfl, rfl, rfl, rfl⟩

lemma sameButIndex_trans {c b a : TestState}
    (h1 : sameButIndex c b) (h2 : sameButIndex b a) : sameButIndex c a := by
  obtain ⟨x1, x2, x3, x4, x5, x6, x7, x8⟩ := h1
  obtain ⟨y1, y2, y3, y4, y5, y6, y7, y8⟩ := h2
  exact ⟨x1.trans y1, x2.trans y2, x3.trans y3, x4.trans y4,
         x5.trans y5, x6.trans y6, x7.trans y7, x8.trans y8⟩

lemma presentWords_shape (sp : Nat → Except String Unit) (base : Nat) :
    ∀ (r i : Nat) (s : TestState),
      (∀ s2, presentWords sp base i r s = .ok s2 → sameButIndex s2 s) ∧
      (∀ e s2, presentWords sp base i r s = .error (e, s2) → sameButIndex s2 s) := by
  intro r
  induction r with
  | zero =>
    intro i s
    refine ⟨fun s2 h => ?_, fun e s2 h => ?_⟩
    · cases h
      exact sameButIndex_refl s
    · cases h
  | succ r ih =>
    intro i s
    refine ⟨fun s2 h => ?_, fun e s2 h => ?_⟩
    · rw [presentWords] at h
      cases hsp : sp (base + i) with
      | ok _ =>
        rw [hsp] at h
        exact sameButIndex_trans ((ih (i + 1) _).1 s2 h) (sameButIndex_update s i)
      | error e =>
        rw [hsp] at h
        cases h
    · rw [presentWords] at h
      cases hsp : sp (base + i) with
      | ok _ =>
        rw [hsp] at h
        exact sameButIndex_trans ((ih (i + 1) _).2 e s2 h) (sameButIndex_update s i)
      | error e2 =>
        rw [hsp] at h
        cases h
        exact sameButIndex_update s i

lemma startTest_shape (sp : Nat → Except String Unit) (s : TestState) :
    (startTest sp s).selectedWordList = s.selectedWordList ∧
    (startTest sp s).score = 0 ∧
    (startTest sp s).transcript = "" ∧
    (startTest sp s).hasRecognition = s.hasRecognition ∧
    (((startTest sp s).testPhase = TestPhase.recall ∧ (startTest sp s).testActive = true) ∨
     ((startTest sp s).testPhase = TestPhase.intro ∧ (startTest sp s).testActive = false ∧
      (startTest sp s).isListening = s.isListening)) := by
  obtain ⟨sa, sph, si, ssc, st, se, sw, sr, sl⟩ := s
  unfold startTest startTestT
  cases hsp0 : sp 0 with
  | error e => exact ⟨rfl, rfl, rfl, rfl, Or.inr ⟨rfl, rfl, rfl⟩⟩
  | ok _ =>
    simp only []
    cases hpw : presentWords sp 1 0 sw.length
      { testActive := true, testPhase := TestPhase.wordPresentation, currentWordIndex := 0,
        score := 0, transcript := "", error := none, selectedWordList := sw,
        hasRecognition := sr, isListening := sl } with
    | error es =>
      obtain ⟨e, s2⟩ := es
      obtain ⟨hA, hP, hSc, hT, hE, hW, hR, hL⟩ := (presentWords_shape sp 1 sw.length 0 _).2 e s2 hpw
      refine ⟨?_, ?_, ?_, ?_, Or.inr ⟨?_, ?_, ?_⟩⟩ <;> simp_all [abortState]
    | ok s2 =>
      obtain ⟨hA, hP, hSc, hT, hE, hW, hR, hL⟩ := (presentWords_shape sp 1 sw.length 0 _).1 s2 hpw
      cases hsp1 : sp (1 + sw.length) with
      | error e => refine ⟨?_, ?_, ?_, ?_, Or.inr ⟨?_, ?_, ?_⟩⟩ <;> simp_all [abortState]
      | ok _ =>
        cases hsp2 : sp (2 + sw.length) with
        | error e => refine ⟨?_, ?_, ?_, ?_, Or.inr ⟨?_, ?_, ?_⟩⟩ <;> simp_all [abortState]
        | ok _ =>
          refine ⟨?_, ?_, ?_, ?_, Or.inl ⟨?_, ?_⟩⟩ <;>
            simp_all [startListening]
          all_goals split_ifs <;> simp_all

lemma wordLists_facts : ∀ wl ∈ wordLists, wl.length = 3 ∧ scoreOf wl "" = 0 := by decide

lemma processUserResponse_fields (text : String) (s : TestState) :
    (processUserResponse text s).score = scoreOf s.selectedWordList text ∧
    (processUserResponse text s).selectedWordList = s.selectedWordList ∧
    (processUserResponse text s).transcript = s.transcript ∧
    (processUserResponse text s).isListening = s.isListening ∧
    (processUserResponse text s).hasRecognition = s.hasRecognition ∧
    (processUserResponse text s).testActive = s.testActive ∧
    (s.testPhase = TestPhase.recall → (processUserResponse text s).testPhase = TestPhase.results) ∧
    (s.testPhase ≠ TestPhase.recall → (processUserResponse text s).testPhase = s.testPhase) := by
  unfold processUserResponse processUserResponseAt scoreOf
  by_cases h : s.testPhase = TestPhase.recall <;>
    simp [h, List.countP_eq_length_filter]

/-- C2 counterexample: resetting from the results phase does not clear
the WordSet selection, and the next start reuses the same WordSet instead
of drawing a new one. -/
theorem reset_wordset_counterexample :
    scoredState.selectedWordList = ["Banana", "Sunset", "Chair"] ∧
    (resetTest scoredState).selectedWordList = ["Banana", "Sunset", "Chair"] ∧
    (startTest okSpeak (resetTest scoredState)).selectedWordList =
      ["Banana", "Sunset", "Chair"] := by
  decide

/-- C2 (amended): reset clears transcript, score and error and returns to
the intro phase, but the WordSet selection is untouched — it is fixed for
the component's lifetime, and the next start reuses the same WordSet. -/
theorem resetTest_spec (s : TestState) (sp : Nat → Except String Unit) :
    (resetTest s).transcript = "" ∧ (resetTest s).score = 0 ∧ (resetTest s).error = none ∧
    (resetTest s).testPhase = TestPhase.intro ∧ (resetTest s).testActive = false ∧
    (resetTest s).selectedWordList = s.selectedWordList ∧
    (startTest sp (resetTest s)).selectedWordList = s.selectedWordList :=
  ⟨rfl, rfl, rfl, rfl, rfl, rfl, (startTest_shape sp (resetTest s)).1⟩

/-- C3 counterexample: with the catalog WordSet Apple, Watch, Penny and
the transcript pineapple, the computed score is 1 (substring match) while
the number of whole-word, case-insensitive matches is 0, so the score is
not the whole-word count. -/
theorem wholeword_counterexample :
    (processUserResponse "pineapple" (initialState 0 true)).score = 1 ∧
    wholeWordScore (initialState 0 true).selectedWordList "pineapple" = 0 ∧
    ¬((processUserResponse "pineapple" (initialState 0 true)).score =
      wholeWordScore (initialState 0 true).selectedWordList "pineapple") := by
  decide

/-- C3 (amended): for every catalog WordSet and every transcript, the
computed score equals the number of WordSet words occurring as
case-insensitive substrings of the transcript (not whole-word matches),
and the score lies in [0, 3]. -/
theorem score_substring_spec (s : TestState) (text : String)
    (h : s.selectedWordList ∈ wordLists) :
    (processUserResponse text s).score = scoreOf s.selectedWordList text ∧
    (processUserResponse text s).score ≤ 3 := by
  refine ⟨(processUserResponse_fields text s).1, ?_⟩
  rw [(processUserResponse_fields text s).1]
  have h3 := (wordLists_facts _ h).1
  unfold scoreOf
  exact le_trans (List.countP_le_length _) (le_of_eq h3)

theorem score_substring_spec_witness :
    (processUserResponse "I remember banana and chair" (initialState 1 true)).score =
      scoreOf (initialState 1 true).selectedWordList "I remember banana and chair" ∧
    (processUserResponse "I remember banana and chair" (initialState 1 true)).score ≤ 3 :=
  score_substring_spec (initialState 1 true) "I remember banana and chair" (by decide)

/-- C4 counterexample: the raw triggers are not no-ops out of phase — a
start trigger from the results phase changes the phase, and a recall
capture processed in the intro phase changes the score. -/
theorem outofphase_counterexample :
    scoredState.testPhase ≠ TestPhase.intro ∧
    (startTest okSpeak scoredState).testPhase ≠ scoredState.testPhase ∧
    (initialState 1 true).testPhase ≠ TestPhase.recall ∧
    (processUserResponse "banana sunset chair" (initialState 1 true)).score ≠
      (initialState 1 true).score := by
  decide

/-- C4 (amended): out-of-phase triggers are blocked by the presentation
layer — the start control exists only when inactive in the intro phase
and a recognition result only arrives while listening; the raw handlers
themselves are only partially guarded: processUserResponse outside the
recall phase leaves phase, WordSet and transcript unchanged (but
recomputes the score), and startTest is not phase-guarded at all. -/
theorem out_of_phase_guards (s : TestState) (sp : Nat → Except String Unit) (text : String) :
    (¬(s.testActive = false ∧ s.testPhase = TestPhase.intro) → uiStartClick sp s = s) ∧
    (s.isListening = false → uiRecognitionResult text s = s) ∧
    (s.testPhase ≠ TestPhase.recall →
      (processUserResponse text s).testPhase = s.testPhase ∧
      (processUserResponse text s).selectedWordList = s.selectedWordList ∧
      (processUserResponse text s).transcript = s.transcript) := by
  refine ⟨fun h => ?_, fun h => ?_, fun h => ?_⟩
  · unfold uiStartClick
    rw [if_neg h]
  · simp [uiRecognitionResult, h]
  · exact ⟨(processUserResponse_fields text s).2.2.2.2.2.2.2 h,
           (processUserResponse_fields text s).2.1,
           (processUserResponse_fields text s).2.2.1⟩

theorem out_of_phase_guards_witness :
    uiStartClick okSpeak scoredState = scoredState ∧
    uiRecognitionResult "anything" scoredState = scoredState ∧
    (processUserResponse "anything" scoredState).testPhase = scoredState.testPhase :=
  ⟨(out_of_phase_guards scoredState okSpeak "anything").1 (by decide),
   (out_of_phase_guards scoredState okSpeak "anything").2.1 (by decide),
   ((out_of_phase_guards scoredState okSpeak "anything").2.2 (by decide)).1⟩

/-- C7: a speech-delivery failure on any of the presentation or
distraction prompts (call indices 0..4: introduction, the three words,
the distraction prompt) aborts the run: the phase returns to intro, the
test deactivates, and the error is recorded in the state. -/
theorem speech_failure_aborts (s : TestState) (sp : Nat → Except String Unit) (k : Nat)
    (e : String) (hlen : s.selectedWordList.length = 3) (hk : k < 5)
    (hok : ∀ j, j < k → sp j = Except.ok ()) (he : sp k = Except.error e) :
    (startTest sp s).testPhase = TestPhase.intro ∧
    (startTest sp s).testActive = false ∧
    (startTest sp s).error = some ("An error occurred during the test: " ++ e) := by
  obtain ⟨sa, sph, si, ssc, st, se, sw, sr, sl⟩ := s
  obtain ⟨w1, w2, w3, rfl⟩ := List.length_eq_three.mp hlen
  interval_cases k
  · simp [startTest, startTestT, presentWords, abortState, he]
  · have h0 := hok 0 (by omega)
    simp [startTest, startTestT, presentWords, abortState, h0, he]
  · have h0 := hok 0 (by omega)
    have h1 := hok 1 (by omega)
    simp [startTest, startTestT, presentWords, abortState, h0, h1, he]
  · have h0 := hok 0 (by omega)
    have h1 := hok 1 (by omega)
    have h2 := hok 2 (by omega)
    simp [startTest, startTestT, presentWords, abortState, h0, h1, h2, he]
  · have h0 := hok 0 (by omega)
    have h1 := hok 1 (by omega)
    have h2 := hok 2 (by omega)
    have h3 := hok 3 (by omega)
    simp [startTest, startTestT, presentWords, abortState, h0, h1, h2, h3, he]

theorem speech_failure_aborts_witness :
    (startTest spFail0 scoredState).testPhase = TestPhase.intro ∧
    (startTest spFail0 scoredState).testActive = false ∧
    (startTest spFail0 scoredState).error =
      some ("An error occurred during the test: " ++ "boom") :=
  speech_failure_aborts scoredState spFail0 0 "boom" (by decide) (by decide)
    (fun j hj => absurd hj (by omega)) rfl

/-- C8: code bug — the score invariant fails on a reachable trigger
sequence: capturedRunState (start, then a recall capture of a transcript
naming all three words) is still in the recall phase with the test
active and not listening, so the listen control is rendered again;
pressing it (buggyListenState) clears the transcript without recomputing
the score, leaving a stored score of 3 while the recomputation
count(word in WordSet such that transcript contains word) over the now
empty transcript is 0. -/
theorem score_invariant_bug :
    (capturedRunState.testActive = true ∧
     capturedRunState.testPhase = TestPhase.recall ∧
     capturedRunState.isListening = false) ∧
    buggyListenState.score = 3 ∧
    buggyListenState.transcript = "" ∧
    scoreOf buggyListenState.selectedWordList buggyListenState.transcript = 0 ∧
    buggyListenState.score ≠
      scoreOf buggyListenState.selectedWordList buggyListenState.transcript := by
  decide

/-- C9: code bug — over a full otherwise-successful run the Scored
(results) phase is never observed: the onresult handler's closure
captured the mount-time intro phase, so the recall-to-results transition
never executes; the observed phases stop at recall, and after the
captured result the phase is still recall even though the score and the
transcript have been stored. -/
theorem phase_ordering_bug :
    fullRunTrace okSpeak "banana sunset chair" (initialState 1 true) =
      [TestPhase.intro, TestPhase.wordPresentation, TestPhase.distraction,
       TestPhase.recall] ∧
    capturedRunState.testPhase = TestPhase.recall ∧
    capturedRunState.score = 3 ∧
    capturedRunState.transcript = "banana sunset chair" := by
  decide

end AlzVoice
